import Mathlib

/-!
Shallow embedding of `src/app.py` (Ciryx Vibe sentiment API).

The classifier collaborator (`vibe_analyzer.sentiment_pipeline`) is an
opaque external component; it is modelled as a function parameter
`Classifier : String → Except String PipeOut` (a fault is `.error e` with
`e` the fault's string description, i.e. Python's `str(e)`).  Wall-clock
timing (`time.time()` deltas) is modelled by oracle parameters:
`timer text` gives the elapsed seconds of the single classifier call on
`text`, and `total_elapsed` the wall-clock span of a whole batch call.

JSON request bodies are modelled by a small universe `PyVal` of Python
values (strings, ints, bools, None, lists) together with association
lists for dicts; `request.get_json()` returning `None` or a falsy body is
the `none` / empty-list case.  Responses are modelled structurally: an
HTTP status plus the fields the handler puts into the JSON body (the
`metadata` timestamp block carries no claim-relevant content and is
omitted).  Python `round(x, n)` is modelled by exact rational rounding.
-/

/-- Python `str.upper()`: upper-case every character (over the string's
character list, the Python semantics of a `str` as a sequence of code
points). -/
def pyUpper (s : String) : String := ⟨s.data.map Char.toUpper⟩

/-- Python `str.lower()`: lower-case every character. -/
def pyLower (s : String) : String := ⟨s.data.map Char.toLower⟩

/-- Python `str.strip()`: remove leading and trailing whitespace. -/
def pyStrip (s : String) : String :=
  ⟨(((s.data.dropWhile Char.isWhitespace).reverse).dropWhile Char.isWhitespace).reverse⟩

/-- Python `len(s)`: number of code points. -/
def pyLen (s : String) : ℕ := s.data.length

/-- Python `s[:n]`: the first `n` code points. -/
def pySlice (n : ℕ) (s : String) : String := ⟨s.data.take n⟩

/-- Python `s + t` on strings. -/
def pyConcat (s t : String) : String := ⟨s.data ++ t.data⟩

/-- Subset of Python values that can appear in the JSON bodies the
handlers inspect. -/
inductive PyVal where
  | str (s : String)
  | int (n : Int)
  | bool (b : Bool)
  | pynone
  | list (xs : List PyVal)

/-- Python truthiness (`bool(v)`) on the modelled values: empty string,
zero, `False`, `None` and the empty list are falsy. -/
def pyFalsy : PyVal → Bool
  | .str s => s.data.isEmpty
  | .int n => n == 0
  | .bool b => !b
  | .pynone => true
  | .list xs => xs.isEmpty

/-- Python dict key lookup (`d[k]` / `k in d`) on an association-list
model of a JSON object. -/
def dictLookup (k : String) : List (String × PyVal) → Option PyVal
  | [] => none
  | (k2, v) :: rest => if k2 = k then some v else dictLookup k rest

/-- Python dict `.get` lookup on a string-valued dict. -/
def tableLookup (k : String) : List (String × String) → Option String
  | [] => none
  | (k2, v) :: rest => if k2 = k then some v else tableLookup k rest

/-- Raw output of the classifier pipeline: `{'label': ..., 'score': ...}`. -/
structure PipeOut where
  label : String
  score : ℚ
deriving DecidableEq

/-- The classifier collaborator: may fault with a string description. -/
abbrev Classifier := String → Except String PipeOut

/-- `sentiment_mapping` from `CiryxVibe.analyze_sentiment` (app.py:61-68). -/
def sentiment_mapping : List (String × String) :=
  [("LABEL_0", "negative"), ("LABEL_1", "neutral"), ("LABEL_2", "positive"),
   ("NEGATIVE", "negative"), ("NEUTRAL", "neutral"), ("POSITIVE", "positive")]

/-- `sentiment_mapping.get(label.upper(), label.lower())` (app.py:70). -/
def normalize_label (label : String) : String :=
  (tableLookup (pyUpper label) sentiment_mapping).getD (pyLower label)

/-- Python `round(q, 4)` on an exact rational (round-half-up; Python uses
round-half-to-even, which differs only at exact midpoints of the fourth
decimal — no claim depends on midpoint behaviour). -/
def round4 (q : ℚ) : ℚ := ((q * 10000 + 1/2).floor : ℚ) / 10000

/-- Python `round(q, 2)` on an exact rational (same midpoint caveat). -/
def round2 (q : ℚ) : ℚ := ((q * 100 + 1/2).floor : ℚ) / 100

/-- Return value of `CiryxVibe.analyze_sentiment` (app.py:75-79). -/
structure AnalysisResult where
  sentiment : String
  confidence : ℚ
  processing_time_ms : ℚ
deriving DecidableEq

/-- `CiryxVibe.analyze_sentiment` (app.py:48-83): run the classifier,
normalize the label, round the confidence to 4 places and the elapsed
milliseconds to 2; any classifier fault is re-raised (logged, not
swallowed). -/
def CiryxVibe.analyze_sentiment (classify : Classifier) (timer : String → ℚ)
    (text : String) : Except String AnalysisResult :=
  match classify text with
  | .error e => .error e
  | .ok r =>
      .ok { sentiment := normalize_label r.label
          , confidence := round4 r.score
          , processing_time_ms := round2 (timer text * 1000) }

/-- Error-envelope body `{'error': ..., 'code': ...}`. -/
structure ErrorBody where
  error : String
  code : String
deriving DecidableEq

/-- The `data` object of a successful `/analyze` response (app.py:135-140). -/
structure AnalyzeData where
  input_text : String
  sentiment : String
  confidence : ℚ
  processing_time_ms : ℚ
deriving DecidableEq

/-- `/analyze` response: either an error envelope with an HTTP status, or
the success envelope (HTTP 200, `success: true`) with its `data`. -/
inductive AnalyzeResponse where
  | failure (status : ℕ) (body : ErrorBody)
  | success (data : AnalyzeData)
deriving DecidableEq

/-- The `/analyze` route handler (app.py:100-153).  `body` is
`request.get_json()`: `none` models a missing/None JSON body, `some d`
a JSON object as an association list.  `not data or 'text' not in data`
collapses to a failed key lookup (an empty dict has no key).  A
non-string `text` value makes `text.strip()` raise `AttributeError`,
which the outer `except` turns into 500 `ANALYSIS_ERROR`. -/
def analyze_sentiment_route (classify : Classifier) (timer : String → ℚ)
    (body : Option (List (String × PyVal))) : AnalyzeResponse :=
  match body with
  | none => .failure 400 ⟨"Missing required field: text", "MISSING_TEXT"⟩
  | some data =>
      match dictLookup "text" data with
      | none => .failure 400 ⟨"Missing required field: text", "MISSING_TEXT"⟩
      | some (.str text) =>
          if (pyStrip text).data.isEmpty then
            .failure 400 ⟨"Text cannot be empty", "EMPTY_TEXT"⟩
          else if pyLen text > 5000 then
            .failure 400 ⟨"Text too long. Maximum 5000 characters.", "TEXT_TOO_LONG"⟩
          else
            match CiryxVibe.analyze_sentiment classify timer text with
            | .ok r =>
                .success { input_text :=
                             if pyLen text > 100 then pyConcat (pySlice 100 text) "..." else text
                         , sentiment := r.sentiment
                         , confidence := r.confidence
                         , processing_time_ms := r.processing_time_ms }
            | .error _ => .failure 500 ⟨"Internal server error", "ANALYSIS_ERROR"⟩
      | some _ => .failure 500 ⟨"Internal server error", "ANALYSIS_ERROR"⟩

/-- One element of the batch `results` array (app.py:187-210).  Error-shape
dicts carry `sentiment: None` / `confidence: None` and no `text_preview`
or `processing_time_ms` key; success-shape dicts carry no `error` key.
`none` models both an absent key and an explicit `None` value. -/
structure BatchItemResult where
  index : ℕ
  text_preview : Option String
  sentiment : Option String
  confidence : Option ℚ
  processing_time_ms : Option ℚ
  error : Option String
deriving DecidableEq

/-- The error-shaped item record `{'index': i, 'error': e, 'sentiment':
None, 'confidence': None}` (app.py:187-192 and 205-210). -/
def errorItem (i : ℕ) (e : String) : BatchItemResult :=
  ⟨i, none, none, none, none, some e⟩

/-- Processing of one batch item (app.py:185-210).  `if not text or not
text.strip()` short-circuits: a falsy value is an "Empty text" item, but
on a truthy non-string `text.strip()` raises `AttributeError` OUTSIDE the
per-item `try`, aborting the whole batch (modelled as `.error`). -/
def process_item (classify : Classifier) (timer : String → ℚ)
    (i : ℕ) (v : PyVal) : Except String BatchItemResult :=
  if pyFalsy v then .ok (errorItem i "Empty text")
  else
    match v with
    | .str text =>
        if (pyStrip text).data.isEmpty then .ok (errorItem i "Empty text")
        else
          match CiryxVibe.analyze_sentiment classify timer text with
          | .ok r =>
              .ok ⟨i, some (if pyLen text > 50 then pyConcat (pySlice 50 text) "..." else text),
                   some r.sentiment, some r.confidence, some r.processing_time_ms, none⟩
          | .error e => .ok (errorItem i e)
    | _ => .error "AttributeError: object has no attribute strip"

/-- The `for i, text in enumerate(texts)` loop (app.py:185-210), with `i0`
the index of the first remaining item; a raise escapes the loop. -/
def process_texts (classify : Classifier) (timer : String → ℚ)
    (i0 : ℕ) : List PyVal → Except String (List BatchItemResult)
  | [] => .ok []
  | v :: vs =>
      match process_item classify timer i0 v with
      | .error e => .error e
      | .ok r =>
          match process_texts classify timer (i0 + 1) vs with
          | .error e => .error e
          | .ok rs => .ok (r :: rs)

/-- The batch `summary` object (app.py:218-222). -/
structure BatchSummary where
  total_texts : ℕ
  successful_analyses : ℕ
  total_processing_time_ms : ℚ
deriving DecidableEq

/-- `'sentiment' in r and r['sentiment']` (app.py:220): both item shapes
carry the `sentiment` key, so this is Python truthiness of its value —
a present, non-None, NON-EMPTY string. -/
def sentimentTruthy (r : BatchItemResult) : Bool :=
  match r.sentiment with
  | some s => !s.data.isEmpty
  | none => false

/-- `/batch` response: an error envelope, or the success envelope
(HTTP 200) with `results` and `summary`. -/
inductive BatchResponse where
  | failure (status : ℕ) (body : ErrorBody)
  | success (results : List BatchItemResult) (summary : BatchSummary)
deriving DecidableEq

/-- The `/batch` route handler (app.py:155-236).  `total_elapsed` is the
wall-clock seconds the processing loop took. -/
def batch_analyze (classify : Classifier) (timer : String → ℚ)
    (total_elapsed : ℚ) (body : Option (List (String × PyVal))) : BatchResponse :=
  match body with
  | none => .failure 400 ⟨"Missing required field: texts (array)", "MISSING_TEXTS"⟩
  | some data =>
      match dictLookup "texts" data with
      | none => .failure 400 ⟨"Missing required field: texts (array)", "MISSING_TEXTS"⟩
      | some (.list texts) =>
          if texts.length > 100 then
            .failure 400 ⟨"Maximum 100 texts per batch", "BATCH_TOO_LARGE"⟩
          else
            match process_texts classify timer 0 texts with
            | .ok results =>
                .success results
                  ⟨texts.length, (results.filter sentimentTruthy).length,
                   round2 (total_elapsed * 1000)⟩
            | .error _ => .failure 500 ⟨"Internal server error", "BATCH_ERROR"⟩
      | some _ => .failure 400 ⟨"texts must be an array", "INVALID_FORMAT"⟩

/-- An item the loop handles without raising: falsy (→ "Empty text") or a
string.  A truthy non-string makes `text.strip()` raise. -/
def item_ok (v : PyVal) : Bool :=
  pyFalsy v ||
    (match v with
     | .str _ => true
     | _ => false)

/-- The result the loop records for one non-raising item (same branches as
`process_item`; the final catch-all is unreachable when `item_ok v`). -/
def item_result (classify : Classifier) (timer : String → ℚ)
    (i : ℕ) (v : PyVal) : BatchItemResult :=
  if pyFalsy v then errorItem i "Empty text"
  else
    match v with
    | .str text =>
        if (pyStrip text).data.isEmpty then errorItem i "Empty text"
        else
          match CiryxVibe.analyze_sentiment classify timer text with
          | .ok r =>
              ⟨i, some (if pyLen text > 50 then pyConcat (pySlice 50 text) "..." else text),
               some r.sentiment, some r.confidence, some r.processing_time_ms, none⟩
          | .error e => errorItem i e
    | _ => errorItem i "Empty text"

/-- Map a per-index function over a list, indices starting at `i0`. -/
def map_items (f : ℕ → PyVal → BatchItemResult) (i0 : ℕ) :
    List PyVal → List BatchItemResult
  | [] => []
  | v :: vs => f i0 v :: map_items f (i0 + 1) vs

/-- A deterministic classifier that always succeeds with `LABEL_2`. -/
def cGood : Classifier := fun _ => .ok ⟨"LABEL_2", 9/10⟩

/-- A classifier that faults (with description "boom") exactly on the
input "bad". -/
def cFaultBad : Classifier :=
  fun s => if s = "bad" then .error "boom" else .ok ⟨"LABEL_2", 9/10⟩

/-- A classifier whose raw label is the empty string. -/
def cEmptyLabel : Classifier := fun _ => .ok ⟨"", 0⟩

/-- The zero timing oracle. -/
def t0 : String → ℚ := fun _ => 0

/-- `n` copies of `'a'` as a string, for boundary-length inputs. -/
def a_repeat (n : ℕ) : String := ⟨List.replicate n 'a'⟩

/-- The spec's three-item example batch: a good text, an empty text, and
one the classifier `cFaultBad` faults on. -/
def texts0 : List PyVal := [.str "good", .str "", .str "bad"]

/-- Batch results for `texts0` under the never-faulting `cGood`. -/
def rsGood : List BatchItemResult :=
  [⟨0, some "good", some "positive", some (round4 (9/10)), some (round2 (0*1000)), none⟩,
   errorItem 1 "Empty text",
   ⟨2, some "bad", some "positive", some (round4 (9/10)), some (round2 (0*1000)), none⟩]

/-- Batch summary for `texts0` under `cGood`. -/
def smGood : BatchSummary := ⟨3, 2, round2 ((0:ℚ)*1000)⟩

/-- Batch results for `texts0` under `cFaultBad`. -/
def rsFault : List BatchItemResult :=
  [⟨0, some "good", some "positive", some (round4 (9/10)), some (round2 (0*1000)), none⟩,
   errorItem 1 "Empty text",
   errorItem 2 "boom"]

/-- Batch summary for `texts0` under `cFaultBad`. -/
def smFault : BatchSummary := ⟨3, 1, round2 ((0:ℚ)*1000)⟩

/-- `/analyze` success data for "good" under `cGood`. -/
def datGood : AnalyzeData := ⟨"good", "positive", round4 (9/10), round2 (0*1000)⟩

/-- Batch results for `[.str "hello"]` under `cEmptyLabel`: the sentiment
is present but is the empty string. -/
def rsEmptyLabel : List BatchItemResult :=
  [⟨0, some "hello", some "", some (round4 0), some (round2 (0*1000)), none⟩]

/-- Batch summary for `[.str "hello"]` under `cEmptyLabel`. -/
def smEmptyLabel : BatchSummary := ⟨1, 0, round2 ((0:ℚ)*1000)⟩

/-- Batch results for the all-falsy batch `[.pynone, .int 0]`. -/
def rsFalsy : List BatchItemResult :=
  [errorItem 0 "Empty text", errorItem 1 "Empty text"]

/-- Batch summary for `[.pynone, .int 0]`. -/
def smFalsy : BatchSummary := ⟨2, 0, round2 ((0:ℚ)*1000)⟩

theorem process_item_of_ok (classify : Classifier) (timer : String → ℚ)
    (i : ℕ) (v : PyVal) (h : item_ok v = true) :
    process_item classify timer i v = .ok (item_result classify timer i v) := by
  cases v with
  | str s =>
      simp only [process_item, item_result]
      split
      · rfl
      · split
        · rfl
        · split <;> rfl
  | int n => simp_all [item_ok, process_item, item_result]
  | bool b => simp_all [item_ok, process_item, item_result]
  | pynone => simp_all [item_ok, process_item, item_result]
  | list xs => simp_all [item_ok, process_item, item_result]

theorem process_item_raises (classify : Classifier) (timer : String → ℚ)
    (i : ℕ) (v : PyVal) (h : item_ok v = false) :
    process_item classify timer i v =
      .error "AttributeError: object has no attribute strip" := by
  cases v <;> simp_all [item_ok, process_item]

theorem map_items_length (f : ℕ → PyVal → BatchItemResult) (i0 : ℕ)
    (l : List PyVal) : (map_items f i0 l).length = l.length := by
  induction l generalizing i0 with
  | nil => rfl
  | cons v vs ih => simp [map_items, ih]

theorem map_items_getD (f : ℕ → PyVal → BatchItemResult) (i0 : ℕ)
    (l : List PyVal) (j : ℕ) (hj : j < l.length) (d : BatchItemResult) :
    (map_items f i0 l).getD j d = f (i0 + j) (l.getD j .pynone) := by
  induction l generalizing i0 j with
  | nil => simp at hj
  | cons v vs ih =>
      cases j with
      | zero => simp [map_items]
      | succ j =>
          simp only [map_items, List.getD_cons_succ]
          rw [ih (i0 + 1) j (by simpa using hj)]
          ring_nf

theorem process_texts_of_ok (classify : Classifier) (timer : String → ℚ)
    (i0 : ℕ) (l : List PyVal) (h : ∀ v ∈ l, item_ok v = true) :
    process_texts classify timer i0 l =
      .ok (map_items (item_result classify timer) i0 l) := by
  induction l generalizing i0 with
  | nil => rfl
  | cons v vs ih =>
      have hv : item_ok v = true := h v (List.mem_cons_self v vs)
      have hvs : ∀ w ∈ vs, item_ok w = true := fun w hw => h w (List.mem_cons_of_mem v hw)
      simp [process_texts, process_item_of_ok classify timer i0 v hv, ih (i0 + 1) hvs,
            map_items]

theorem process_texts_ok_inv (classify : Classifier) (timer : String → ℚ)
    (i0 : ℕ) (l : List PyVal) (rs : List BatchItemResult)
    (h : process_texts classify timer i0 l = .ok rs) :
    (∀ v ∈ l, item_ok v = true) ∧
      rs = map_items (item_result classify timer) i0 l := by
  induction l generalizing i0 rs with
  | nil =>
      simp [process_texts] at h
      simp [map_items, h.symm]
  | cons v vs ih =>
      by_cases hv : item_ok v = true
      · rw [process_texts, process_item_of_ok classify timer i0 v hv] at h
        cases hrec : process_texts classify timer (i0 + 1) vs with
        | error e => rw [hrec] at h; exact absurd h (by simp)
        | ok rs2 =>
            rw [hrec] at h
            have h2 := ih (i0 + 1) rs2 hrec
            refine ⟨fun w hw => ?_, ?_⟩
            · rcases List.mem_cons.mp hw with rfl | hmem
              · exact hv
              · exact h2.1 w hmem
            · simp only [Except.ok.injEq] at h
              rw [← h, map_items, h2.2]
      · rw [process_texts,
           process_item_raises classify timer i0 v (by simpa using hv)] at h
        exact absurd h (by simp)

theorem process_texts_raises (classify : Classifier) (timer : String → ℚ)
    (i0 : ℕ) (l : List PyVal) (h : ∃ v ∈ l, item_ok v = false) :
    ∃ e, process_texts classify timer i0 l = .error e := by
  cases hp : process_texts classify timer i0 l with
  | error e => exact ⟨e, rfl⟩
  | ok rs =>
      obtain ⟨v, hmem, hbad⟩ := h
      have := (process_texts_ok_inv classify timer i0 l rs hp).1 v hmem
      rw [this] at hbad
      exact absurd hbad (by simp)

theorem item_result_index (classify : Classifier) (timer : String → ℚ)
    (i : ℕ) (v : PyVal) : (item_result classify timer i v).index = i := by
  cases v <;> simp only [item_result] <;> split <;>
    first
      | rfl
      | (split <;> first | rfl | (split <;> rfl))

theorem item_result_congr (c1 c2 : Classifier) (timer : String → ℚ)
    (i : ℕ) (v : PyVal) (h : ∀ s, v = .str s → c1 s = c2 s) :
    item_result c1 timer i v = item_result c2 timer i v := by
  cases v with
  | str s =>
      simp only [item_result, CiryxVibe.analyze_sentiment, h s rfl]
  | int n => rfl
  | bool b => rfl
  | pynone => rfl
  | list xs => rfl

theorem batch_success_inv (classify : Classifier) (timer : String → ℚ)
    (total_elapsed : ℚ) (data : List (String × PyVal)) (texts : List PyVal)
    (rs : List BatchItemResult) (sm : BatchSummary)
    (hlook : dictLookup "texts" data = some (.list texts))
    (h : batch_analyze classify timer total_elapsed (some data) = .success rs sm) :
    texts.length ≤ 100 ∧
      process_texts classify timer 0 texts = .ok rs ∧
      sm = ⟨texts.length, (rs.filter sentimentTruthy).length,
            round2 (total_elapsed * 1000)⟩ := by
  rw [batch_analyze, hlook] at h
  dsimp only at h
  by_cases hlen : texts.length > 100
  · rw [if_pos hlen] at h
    exact absurd h (by simp)
  · rw [if_neg hlen] at h
    cases hp : process_texts classify timer 0 texts with
    | error e => rw [hp] at h; exact absurd h (by simp)
    | ok rs2 =>
        rw [hp] at h
        simp only [BatchResponse.success.injEq] at h
        obtain ⟨h1, h2⟩ := h
        subst h1
        exact ⟨by omega, rfl, h2.symm⟩

theorem batch_success_intro (classify : Classifier) (timer : String → ℚ)
    (total_elapsed : ℚ) (data : List (String × PyVal)) (texts : List PyVal)
    (rs : List BatchItemResult)
    (hlook : dictLookup "texts" data = some (.list texts))
    (hlen : texts.length ≤ 100)
    (hp : process_texts classify timer 0 texts = .ok rs) :
    batch_analyze classify timer total_elapsed (some data) =
      .success rs ⟨texts.length, (rs.filter sentimentTruthy).length,
                   round2 (total_elapsed * 1000)⟩ := by
  rw [batch_analyze, hlook]
  dsimp only
  rw [if_neg (by omega), hp]

theorem dropWhile_ws_replicate (n : ℕ) :
    (List.replicate n 'a').dropWhile Char.isWhitespace = List.replicate n 'a' := by
  cases n with
  | zero => rfl
  | succ m =>
      rw [List.replicate_succ, List.dropWhile_cons]
      simp [(by decide : Char.isWhitespace 'a' = false)]

theorem pyStrip_a_repeat (n : ℕ) : pyStrip (a_repeat n) = a_repeat n := by
  simp [pyStrip, a_repeat, dropWhile_ws_replicate, List.reverse_replicate]

theorem pyLen_a_repeat (n : ℕ) : pyLen (a_repeat n) = n := by
  simp [pyLen, a_repeat]

theorem pyStrip_a_repeat_isEmpty (n : ℕ) (h : n ≠ 0) :
    (pyStrip (a_repeat n)).data.isEmpty = false := by
  rw [pyStrip_a_repeat]
  cases n with
  | zero => exact absurd rfl h
  | succ m => simp [a_repeat, List.replicate_succ]

theorem pyFalsy_str_of_strip (t : String)
    (h : (pyStrip t).data.isEmpty = false) : pyFalsy (.str t) = false := by
  cases t with
  | mk data =>
      cases data with
      | nil => simp [pyStrip] at h
      | cons c cs => simp [pyFalsy]

theorem sentimentTruthy_eq (r : BatchItemResult) :
    sentimentTruthy r =
      (match r.sentiment with
       | some s => decide (s ≠ "")
       | none => false) := by
  cases hs : r.sentiment with
  | none => simp [sentimentTruthy, hs]
  | some s =>
      cases s with
      | mk data =>
          cases data with
          | nil => simp [sentimentTruthy, hs]
          | cons c cs =>
              have hne : (⟨c :: cs⟩ : String) ≠ "" := fun h => by
                have h2 := congrArg String.data h
                simp at h2
              simp [sentimentTruthy, hs, hne]

theorem item_result_of_falsy (classify : Classifier) (timer : String → ℚ)
    (i : ℕ) (v : PyVal) (h : pyFalsy v = true) :
    item_result classify timer i v = errorItem i "Empty text" := by
  simp [item_result, h]

theorem item_result_str_stripped (classify : Classifier) (timer : String → ℚ)
    (i : ℕ) (t : String) (hs : (pyStrip t).data.isEmpty = true) :
    item_result classify timer i (.str t) = errorItem i "Empty text" := by
  cases hf : pyFalsy (.str t) <;> simp [item_result, hf, hs]

theorem item_result_str_fault (classify : Classifier) (timer : String → ℚ)
    (i : ℕ) (t e : String) (hne : (pyStrip t).data.isEmpty = false)
    (hf : classify t = .error e) :
    item_result classify timer i (.str t) = errorItem i e := by
  simp [item_result, pyFalsy_str_of_strip t hne, hne, CiryxVibe.analyze_sentiment, hf]

theorem item_result_str_ok (classify : Classifier) (timer : String → ℚ)
    (i : ℕ) (t : String) (p : PipeOut) (hne : (pyStrip t).data.isEmpty = false)
    (hc : classify t = .ok p) :
    item_result classify timer i (.str t) =
      ⟨i, some (if pyLen t > 50 then pyConcat (pySlice 50 t) "..." else t),
       some (normalize_label p.label), some (round4 p.score),
       some (round2 (timer t * 1000)), none⟩ := by
  simp [item_result, pyFalsy_str_of_strip t hne, hne, CiryxVibe.analyze_sentiment, hc]

theorem process_item_of_falsy (classify : Classifier) (timer : String → ℚ)
    (i : ℕ) (v : PyVal) (h : pyFalsy v = true) :
    process_item classify timer i v = .ok (errorItem i "Empty text") := by
  simp [process_item, h]

theorem process_item_str_stripped (classify : Classifier) (timer : String → ℚ)
    (i : ℕ) (t : String) (hs : (pyStrip t).data.isEmpty = true) :
    process_item classify timer i (.str t) = .ok (errorItem i "Empty text") := by
  cases hf : pyFalsy (.str t) <;> simp [process_item, hf, hs]

/-- C4: label normalization is case-insensitive over the fixed table
`LABEL_0→negative, LABEL_1→neutral, LABEL_2→positive, NEGATIVE→negative,
NEUTRAL→neutral, POSITIVE→positive`; a label not in the table (after
upper-casing) maps to the raw label lower-cased — pass-through, not an
error.  In particular `LABEL_2 → positive`, `negative → negative`,
`FOO → foo`. -/
theorem label_normalization_spec :
    (∀ label : String, tableLookup (pyUpper label) sentiment_mapping = none →
        normalize_label label = pyLower label) ∧
    (∀ label s, tableLookup (pyUpper label) sentiment_mapping = some s →
        normalize_label label = s) ∧
    normalize_label "LABEL_0" = "negative" ∧
    normalize_label "LABEL_1" = "neutral" ∧
    normalize_label "LABEL_2" = "positive" ∧
    normalize_label "NEGATIVE" = "negative" ∧
    normalize_label "NEUTRAL" = "neutral" ∧
    normalize_label "POSITIVE" = "positive" ∧
    normalize_label "label_2" = "positive" ∧
    normalize_label "Label_2" = "positive" ∧
    normalize_label "negative" = "negative" ∧
    normalize_label "FOO" = "foo" := by
  refine ⟨fun label h => ?_, fun label s h => ?_, ?_, ?_, ?_, ?_, ?_, ?_, ?_, ?_, ?_, ?_⟩
  · simp [normalize_label, h]
  · simp [normalize_label, h]
  all_goals decide

/-- Witness for C4: a label outside the table passes through lower-cased. -/
theorem label_normalization_spec_witness :
    tableLookup (pyUpper "WeIrD") sentiment_mapping = none ∧
      normalize_label "WeIrD" = pyLower "WeIrD" :=
  ⟨by decide, label_normalization_spec.1 "WeIrD" (by decide)⟩

/-- C2: `/analyze` validation: no/None body or missing `text` key →
400 MISSING_TEXT; else a string text that is empty after stripping →
400 EMPTY_TEXT; else raw length > 5000 → 400 TEXT_TOO_LONG; else
validation passes and the response is determined by the analyzer
(success envelope or 500 ANALYSIS_ERROR).  The conjuncts' guard
conditions encode the missing → empty → too-long order; the last two
conjuncts check the boundary: length 5000 passes validation, 5001 is
rejected. -/
theorem analyze_validation_order (classify : Classifier) (timer : String → ℚ) :
    (analyze_sentiment_route classify timer none =
        .failure 400 ⟨"Missing required field: text", "MISSING_TEXT"⟩) ∧
    (∀ data, dictLookup "text" data = none →
        analyze_sentiment_route classify timer (some data) =
          .failure 400 ⟨"Missing required field: text", "MISSING_TEXT"⟩) ∧
    (∀ data text, dictLookup "text" data = some (.str text) →
        (pyStrip text).data.isEmpty = true →
        analyze_sentiment_route classify timer (some data) =
          .failure 400 ⟨"Text cannot be empty", "EMPTY_TEXT"⟩) ∧
    (∀ data text, dictLookup "text" data = some (.str text) →
        (pyStrip text).data.isEmpty = false → 5000 < pyLen text →
        analyze_sentiment_route classify timer (some data) =
          .failure 400 ⟨"Text too long. Maximum 5000 characters.", "TEXT_TOO_LONG"⟩) ∧
    (∀ data text, dictLookup "text" data = some (.str text) →
        (pyStrip text).data.isEmpty = false → pyLen text ≤ 5000 →
        analyze_sentiment_route classify timer (some data) =
          (match CiryxVibe.analyze_sentiment classify timer text with
           | .ok r =>
               .success ⟨if pyLen text > 100 then pyConcat (pySlice 100 text) "..." else text,
                         r.sentiment, r.confidence, r.processing_time_ms⟩
           | .error _ => .failure 500 ⟨"Internal server error", "ANALYSIS_ERROR"⟩)) ∧
    (analyze_sentiment_route classify timer (some [("text", .str (a_repeat 5000))]) =
        (match CiryxVibe.analyze_sentiment classify timer (a_repeat 5000) with
         | .ok r =>
             .success ⟨pyConcat (pySlice 100 (a_repeat 5000)) "...",
                       r.sentiment, r.confidence, r.processing_time_ms⟩
         | .error _ => .failure 500 ⟨"Internal server error", "ANALYSIS_ERROR"⟩)) ∧
    (analyze_sentiment_route classify timer (some [("text", .str (a_repeat 5001))]) =
        .failure 400 ⟨"Text too long. Maximum 5000 characters.", "TEXT_TOO_LONG"⟩) := by
  refine ⟨rfl, fun data h => ?_, fun data text h hs => ?_, fun data text h hne hlen => ?_,
          fun data text h hne hlen => ?_, ?_, ?_⟩
  · simp [analyze_sentiment_route, h]
  · simp [analyze_sentiment_route, h, hs]
  · simp [analyze_sentiment_route, h, hne, hlen]
  · have hnl : ¬ 5000 < pyLen text := by omega
    simp [analyze_sentiment_route, h, hne, hnl]
  · have hne := pyStrip_a_repeat_isEmpty 5000 (by omega)
    simp [analyze_sentiment_route, dictLookup, hne, pyLen_a_repeat]
  · have hne := pyStrip_a_repeat_isEmpty 5001 (by omega)
    simp [analyze_sentiment_route, dictLookup, hne, pyLen_a_repeat]

/-- Witness for C2: the spec's concrete examples `{}` → MISSING_TEXT,
`"   "` → EMPTY_TEXT, and a short text passing validation. -/
theorem analyze_validation_order_witness :
    (dictLookup "text" ([] : List (String × PyVal)) = none) ∧
    (analyze_sentiment_route cGood t0 (some []) =
      .failure 400 ⟨"Missing required field: text", "MISSING_TEXT"⟩) ∧
    ((pyStrip "   ").data.isEmpty = true) ∧
    (analyze_sentiment_route cGood t0 (some [("text", .str "   ")]) =
      .failure 400 ⟨"Text cannot be empty", "EMPTY_TEXT"⟩) ∧
    ((pyStrip "hi").data.isEmpty = false) ∧ (pyLen "hi" ≤ 5000) ∧
    (analyze_sentiment_route cGood t0 (some [("text", .str "hi")]) =
      (match CiryxVibe.analyze_sentiment cGood t0 "hi" with
       | .ok r =>
           .success ⟨if pyLen "hi" > 100 then pyConcat (pySlice 100 "hi") "..." else "hi",
                     r.sentiment, r.confidence, r.processing_time_ms⟩
       | .error _ => .failure 500 ⟨"Internal server error", "ANALYSIS_ERROR"⟩)) :=
  ⟨rfl, (analyze_validation_order cGood t0).2.1 [] rfl,
   by decide, (analyze_validation_order cGood t0).2.2.1 _ "   " rfl (by decide),
   by decide, by decide,
   (analyze_validation_order cGood t0).2.2.2.2.1 _ "hi" rfl (by decide) (by decide)⟩

/-- C3: `/batch` wholesale rejection: no/None body or missing `texts` key
→ 400 MISSING_TEXTS; `texts` not a list → 400 INVALID_FORMAT; more than
100 items → 400 BATCH_TOO_LARGE.  Each rejection is a constant response
computed without running `process_texts` (no item processed, classifier
never invoked: the right-hand sides do not mention `classify`).  With at
most 100 items the response is exactly the per-item processing outcome;
the last two conjuncts check the boundary at 100 and 101 elements. -/
theorem batch_wholesale_rejection (classify : Classifier) (timer : String → ℚ)
    (total_elapsed : ℚ) :
    (batch_analyze classify timer total_elapsed none =
        .failure 400 ⟨"Missing required field: texts (array)", "MISSING_TEXTS"⟩) ∧
    (∀ data, dictLookup "texts" data = none →
        batch_analyze classify timer total_elapsed (some data) =
          .failure 400 ⟨"Missing required field: texts (array)", "MISSING_TEXTS"⟩) ∧
    (∀ data v, dictLookup "texts" data = some v → (∀ xs, v ≠ .list xs) →
        batch_analyze classify timer total_elapsed (some data) =
          .failure 400 ⟨"texts must be an array", "INVALID_FORMAT"⟩) ∧
    (∀ data texts, dictLookup "texts" data = some (.list texts) →
        100 < texts.length →
        batch_analyze classify timer total_elapsed (some data) =
          .failure 400 ⟨"Maximum 100 texts per batch", "BATCH_TOO_LARGE"⟩) ∧
    (∀ data texts, dictLookup "texts" data = some (.list texts) →
        texts.length ≤ 100 →
        batch_analyze classify timer total_elapsed (some data) =
          (match process_texts classify timer 0 texts with
           | .ok results =>
               .success results ⟨texts.length, (results.filter sentimentTruthy).length,
                                 round2 (total_elapsed * 1000)⟩
           | .error _ => .failure 500 ⟨"Internal server error", "BATCH_ERROR"⟩)) ∧
    (batch_analyze classify timer total_elapsed
        (some [("texts", .list (List.replicate 100 (.str "hello")))]) =
      (match process_texts classify timer 0 (List.replicate 100 (.str "hello")) with
       | .ok results =>
           .success results ⟨100, (results.filter sentimentTruthy).length,
                             round2 (total_elapsed * 1000)⟩
       | .error _ => .failure 500 ⟨"Internal server error", "BATCH_ERROR"⟩)) ∧
    (batch_analyze classify timer total_elapsed
        (some [("texts", .list (List.replicate 101 (.str "hello")))]) =
      .failure 400 ⟨"Maximum 100 texts per batch", "BATCH_TOO_LARGE"⟩) := by
  refine ⟨rfl, fun data h => ?_, fun data v h hv => ?_, fun data texts h hlen => ?_,
          fun data texts h hlen => ?_, ?_, ?_⟩
  · simp [batch_analyze, h]
  · cases v with
    | list xs => exact absurd rfl (hv xs)
    | str s => simp [batch_analyze, h]
    | int n => simp [batch_analyze, h]
    | bool b => simp [batch_analyze, h]
    | pynone => simp [batch_analyze, h]
  · simp [batch_analyze, h, hlen]
  · have hnl : ¬ 100 < texts.length := by omega
    simp [batch_analyze, h, hnl]
  · simp [batch_analyze, dictLookup]
  · simp [batch_analyze, dictLookup]

/-- Witness for C3: missing key, wrong type, and 101 items, all rejected;
and an accepted two-item batch. -/
theorem batch_wholesale_rejection_witness :
    (dictLookup "texts" ([("other", .int 1)] : List (String × PyVal)) = none) ∧
    (batch_analyze cGood t0 0 (some [("other", .int 1)]) =
      .failure 400 ⟨"Missing required field: texts (array)", "MISSING_TEXTS"⟩) ∧
    (batch_analyze cGood t0 0 (some [("texts", .str "oops")]) =
      .failure 400 ⟨"texts must be an array", "INVALID_FORMAT"⟩) ∧
    (100 < (List.replicate 101 (PyVal.str "hello")).length) ∧
    (batch_analyze cGood t0 0
        (some [("texts", .list (List.replicate 101 (.str "hello")))]) =
      .failure 400 ⟨"Maximum 100 texts per batch", "BATCH_TOO_LARGE"⟩) ∧
    (batch_analyze cGood t0 0 (some [("texts", .list [.str "hi", .str "yo"])]) =
      (match process_texts cGood t0 0 [.str "hi", .str "yo"] with
       | .ok results =>
           .success results ⟨2, (results.filter sentimentTruthy).length, round2 (0 * 1000)⟩
       | .error _ => .failure 500 ⟨"Internal server error", "BATCH_ERROR"⟩)) :=
  ⟨rfl, (batch_wholesale_rejection cGood t0 0).2.1 _ rfl,
   (batch_wholesale_rejection cGood t0 0).2.2.1 _ (.str "oops") rfl
     (fun xs h => by cases h),
   by simp,
   (batch_wholesale_rejection cGood t0 0).2.2.2.1 _ _ rfl (by simp),
   (batch_wholesale_rejection cGood t0 0).2.2.2.2.1 _ [.str "hi", .str "yo"] rfl
     (by simp)⟩

/-- C5: for every accepted batch of n items, the results sequence has
exactly n entries, entry j carries `index = j` (so indices are
0, 1, ..., n-1 in order), and entry j is exactly the per-item outcome of
the input item at position j — no reordering, no omission, regardless of
which items fail or are empty. -/
theorem batch_ordering_invariant (classify : Classifier) (timer : String → ℚ)
    (total_elapsed : ℚ) (data : List (String × PyVal)) (texts : List PyVal)
    (rs : List BatchItemResult) (sm : BatchSummary)
    (hlook : dictLookup "texts" data = some (.list texts))
    (h : batch_analyze classify timer total_elapsed (some data) = .success rs sm) :
    rs.length = texts.length ∧
    ∀ j, j < texts.length →
      (rs.getD j (errorItem 0 "")).index = j ∧
      rs.getD j (errorItem 0 "") = item_result classify timer j (texts.getD j .pynone) := by
  obtain ⟨hlen, hp, hsm⟩ :=
    batch_success_inv classify timer total_elapsed data texts rs sm hlook h
  obtain ⟨hall, hrs⟩ := process_texts_ok_inv classify timer 0 texts rs hp
  subst hrs
  refine ⟨map_items_length _ 0 texts, fun j hj => ?_⟩
  rw [map_items_getD _ 0 texts j hj (errorItem 0 "")]
  simp [item_result_index]

/-- Witness for C5 on the three-item example batch. -/
theorem batch_ordering_invariant_witness :
    rsGood.length = texts0.length ∧
    (rsGood.getD 1 (errorItem 0 "")).index = 1 ∧
    rsGood.getD 1 (errorItem 0 "") = item_result cGood t0 1 (texts0.getD 1 .pynone) := by
  obtain ⟨h1, h2⟩ := batch_ordering_invariant cGood t0 0
    [("texts", .list texts0)] texts0 rsGood smGood rfl rfl
  exact ⟨h1, h2 1 (by decide)⟩

/-- C1: per-item fault isolation.  For a batch that passes whole-request
validation (and whose items are all strings or falsy, so the loop itself
raises nothing), if the classifier `c` faults with description `e` on the
string item at index `i`, the endpoint still returns the success envelope
with a summary; the result at index `i` is
`{index i, error e, sentiment None, confidence None}`; and for any other
classifier `c2` that agrees with `c` away from that item's text (in
particular one under which item `i` does not fault), every other item's
result is identical under `c` and `c2`. -/
theorem batch_fault_isolation
    (c c2 : Classifier) (timer : String → ℚ) (bt bt2 : ℚ)
    (data data2 : List (String × PyVal)) (texts : List PyVal)
    (i : ℕ) (t e : String)
    (hlook : dictLookup "texts" data = some (.list texts))
    (hlook2 : dictLookup "texts" data2 = some (.list texts))
    (hlen : texts.length ≤ 100)
    (hok : ∀ v ∈ texts, item_ok v = true)
    (hi : i < texts.length)
    (hit : texts.getD i .pynone = .str t)
    (hne : (pyStrip t).data.isEmpty = false)
    (hfault : c t = .error e)
    (hagree : ∀ x, x ≠ t → c2 x = c x) :
    ∃ rs sm rs2 sm2,
      batch_analyze c timer bt (some data) = .success rs sm ∧
      batch_analyze c2 timer bt2 (some data2) = .success rs2 sm2 ∧
      rs.length = texts.length ∧ rs2.length = texts.length ∧
      rs.getD i (errorItem 0 "") = errorItem i e ∧
      (∀ j, j < texts.length → j ≠ i →
        (∀ s, texts.getD j .pynone = .str s → s ≠ t) →
        rs.getD j (errorItem 0 "") = rs2.getD j (errorItem 0 "")) := by
  have hp := process_texts_of_ok c timer 0 texts hok
  have hp2 := process_texts_of_ok c2 timer 0 texts hok
  refine ⟨_, _, _, _,
    batch_success_intro c timer bt data texts _ hlook hlen hp,
    batch_success_intro c2 timer bt2 data2 texts _ hlook2 hlen hp2,
    map_items_length _ 0 texts, map_items_length _ 0 texts, ?_, ?_⟩
  · rw [map_items_getD _ 0 texts i hi (errorItem 0 ""), Nat.zero_add, hit]
    exact item_result_str_fault c timer i t e hne hfault
  · intro j hj hji hs
    rw [map_items_getD _ 0 texts j hj (errorItem 0 ""),
        map_items_getD _ 0 texts j hj (errorItem 0 "")]
    exact item_result_congr c c2 timer (0 + j) _
      (fun s hsj => (hagree s (hs s hsj)).symm)

/-- Witness for C1: `cFaultBad` faults only on "bad" (index 2); under the
fault-free `cGood`, item 0 has the identical result. -/
theorem batch_fault_isolation_witness :
    batch_analyze cFaultBad t0 0 (some [("texts", .list texts0)]) =
      .success rsFault smFault ∧
    batch_analyze cGood t0 0 (some [("texts", .list texts0)]) =
      .success rsGood smGood ∧
    rsFault.getD 2 (errorItem 0 "") = errorItem 2 "boom" ∧
    rsFault.getD 0 (errorItem 0 "") = rsGood.getD 0 (errorItem 0 "") := by
  obtain ⟨rs, sm, rs2, sm2, h1, h2, hl1, hl2, hidx, hrest⟩ :=
    batch_fault_isolation cFaultBad cGood t0 0 0 [("texts", .list texts0)]
      [("texts", .list texts0)] texts0 2 "bad" "boom" rfl rfl (by decide) (by decide)
      (by decide) rfl (by decide) rfl (fun x hx => by simp [cGood, cFaultBad, hx])
  have e1 : batch_analyze cFaultBad t0 0 (some [("texts", .list texts0)]) =
      .success rsFault smFault := rfl
  have e2 : batch_analyze cGood t0 0 (some [("texts", .list texts0)]) =
      .success rsGood smGood := rfl
  rw [h1] at e1
  rw [h2] at e2
  injection e1 with ea eb
  injection e2 with ec ed
  subst ea; subst eb; subst ec; subst ed
  refine ⟨h1, h2, hidx, hrest 0 (by decide) (by decide) (fun s hsj => ?_)⟩
  have hg : "good" = s := by injection hsj
  subst hg
  decide

/-- C6 (amended): `total_texts` equals the number of input items, and
`successful` equals the count of result items whose sentiment is present
AND a non-empty string (Python truthiness of the value) — a
present-but-empty-string sentiment, reachable through the lower-cased
pass-through of an empty raw label, is not counted; a batch with
`texts == []` returns success with 0 / 0 / empty results. -/
theorem batch_summary_fields (classify : Classifier) (timer : String → ℚ)
    (total_elapsed : ℚ) (data : List (String × PyVal)) (texts : List PyVal)
    (rs : List BatchItemResult) (sm : BatchSummary)
    (hlook : dictLookup "texts" data = some (.list texts))
    (h : batch_analyze classify timer total_elapsed (some data) = .success rs sm) :
    sm.total_texts = texts.length ∧
    sm.successful_analyses =
      (rs.filter (fun r =>
        match r.sentiment with
        | some s => decide (s ≠ "")
        | none => false)).length ∧
    (∀ c3 t3 bt3,
      batch_analyze c3 t3 bt3 (some [("texts", .list ([] : List PyVal))]) =
        .success [] ⟨0, 0, round2 (bt3 * 1000)⟩) := by
  obtain ⟨hlen, hp, hsm⟩ :=
    batch_success_inv classify timer total_elapsed data texts rs sm hlook h
  subst hsm
  refine ⟨rfl, ?_, fun c3 t3 bt3 => ?_⟩
  · have hfun : sentimentTruthy = fun r =>
        match r.sentiment with
        | some s => decide (s ≠ "")
        | none => false := funext sentimentTruthy_eq
    rw [hfun]
  · exact batch_success_intro c3 t3 bt3 _ [] [] rfl (by simp) rfl

/-- Witness for C6's amended statement on the three-item example batch
and the empty batch. -/
theorem batch_summary_fields_witness :
    smGood.total_texts = texts0.length ∧
    smGood.successful_analyses =
      (rsGood.filter (fun r =>
        match r.sentiment with
        | some s => decide (s ≠ "")
        | none => false)).length ∧
    batch_analyze cGood t0 0 (some [("texts", .list ([] : List PyVal))]) =
      .success [] ⟨0, 0, round2 ((0:ℚ) * 1000)⟩ := by
  obtain ⟨h1, h2, h3⟩ := batch_summary_fields cGood t0 0
    [("texts", .list texts0)] texts0 rsGood smGood rfl rfl
  exact ⟨h1, h2, h3 cGood t0 0⟩

/-- C6 counterexample: with a classifier whose raw label is the empty
string, the lone item's sentiment is present (non-absent) but empty, so
the count of items with a present, non-absent sentiment is 1 while the
code's `successful_analyses` (Python truthiness) is 0 — the claim's
"present and non-absent" reading is false on the code. -/
theorem batch_summary_claim_counterexample :
    batch_analyze cEmptyLabel t0 0 (some [("texts", .list [.str "hello"])]) =
      .success rsEmptyLabel smEmptyLabel ∧
    (rsEmptyLabel.filter (fun r => r.sentiment.isSome)).length = 1 ∧
    smEmptyLabel.successful_analyses = 0 :=
  ⟨rfl, rfl, rfl⟩

/-- C7: in an accepted batch, an item that is falsy (absent/empty) or a
string that strips to zero length yields `{index, error "Empty text",
sentiment None, confidence None}`, and its per-item step is the same for
every classifier and timer (the classifier is not invoked for it). -/
theorem batch_empty_item_results (classify : Classifier) (timer : String → ℚ)
    (total_elapsed : ℚ) (data : List (String × PyVal)) (texts : List PyVal)
    (rs : List BatchItemResult) (sm : BatchSummary) (j : ℕ)
    (hlook : dictLookup "texts" data = some (.list texts))
    (h : batch_analyze classify timer total_elapsed (some data) = .success rs sm)
    (hj : j < texts.length)
    (hempty : pyFalsy (texts.getD j .pynone) = true ∨
      (∃ s, texts.getD j .pynone = .str s ∧ (pyStrip s).data.isEmpty = true)) :
    rs.getD j (errorItem 0 "") = errorItem j "Empty text" ∧
    (∀ c3 t3, process_item c3 t3 j (texts.getD j .pynone) =
      .ok (errorItem j "Empty text")) := by
  obtain ⟨hlen, hp, hsm⟩ :=
    batch_success_inv classify timer total_elapsed data texts rs sm hlook h
  obtain ⟨hall, hrs⟩ := process_texts_ok_inv classify timer 0 texts rs hp
  subst hrs
  constructor
  · rw [map_items_getD _ 0 texts j hj (errorItem 0 ""), Nat.zero_add]
    rcases hempty with hf | ⟨s, hs, hse⟩
    · exact item_result_of_falsy classify timer j _ hf
    · rw [hs]
      exact item_result_str_stripped classify timer j s hse
  · intro c3 t3
    rcases hempty with hf | ⟨s, hs, hse⟩
    · exact process_item_of_falsy c3 t3 j _ hf
    · rw [hs]
      exact process_item_str_stripped c3 t3 j s hse

/-- Witness for C7: item 1 of the example batch is the empty string; its
step is classifier-independent. -/
theorem batch_empty_item_results_witness :
    rsGood.getD 1 (errorItem 0 "") = errorItem 1 "Empty text" ∧
    process_item cFaultBad t0 1 (texts0.getD 1 .pynone) =
      .ok (errorItem 1 "Empty text") := by
  obtain ⟨h1, h2⟩ := batch_empty_item_results cGood t0 0
    [("texts", .list texts0)] texts0 rsGood smGood 1 rfl rfl (by decide)
    (Or.inl (by decide))
  exact ⟨h1, h2 cFaultBad t0⟩

/-- C8: fault-detail asymmetry.  A classifier fault with description `e`
on a validated single-analysis text yields 500 with the constant body
`{error: "Internal server error", code: "ANALYSIS_ERROR"}` — independent
of `e`, so the fault description is not exposed; the same fault on a
batch item puts `e` itself into that item's `error` field. -/
theorem fault_detail_asymmetry (classify : Classifier) (timer : String → ℚ)
    (total_elapsed : ℚ) (e : String) :
    (∀ data text, dictLookup "text" data = some (.str text) →
        (pyStrip text).data.isEmpty = false → pyLen text ≤ 5000 →
        classify text = .error e →
        analyze_sentiment_route classify timer (some data) =
          .failure 500 ⟨"Internal server error", "ANALYSIS_ERROR"⟩) ∧
    (∀ data texts rs sm j t,
        dictLookup "texts" data = some (.list texts) →
        batch_analyze classify timer total_elapsed (some data) = .success rs sm →
        j < texts.length → texts.getD j .pynone = .str t →
        (pyStrip t).data.isEmpty = false →
        classify t = .error e →
        rs.getD j (errorItem 0 "") = errorItem j e) := by
  constructor
  · intro data text h hne hlen hf
    have hnl : ¬ 5000 < pyLen text := by omega
    simp [analyze_sentiment_route, h, hne, hnl, CiryxVibe.analyze_sentiment, hf]
  · intro data texts rs sm j t hlook h hj ht hne hf
    obtain ⟨hlen, hp, hsm⟩ :=
      batch_success_inv classify timer total_elapsed data texts rs sm hlook h
    obtain ⟨hall, hrs⟩ := process_texts_ok_inv classify timer 0 texts rs hp
    subst hrs
    rw [map_items_getD _ 0 texts j hj (errorItem 0 ""), Nat.zero_add, ht]
    exact item_result_str_fault classify timer j t e hne hf

/-- Witness for C8: the same fault ("boom" on "bad") is hidden by
`/analyze` and exposed in the batch item. -/
theorem fault_detail_asymmetry_witness :
    analyze_sentiment_route cFaultBad t0 (some [("text", .str "bad")]) =
      .failure 500 ⟨"Internal server error", "ANALYSIS_ERROR"⟩ ∧
    rsFault.getD 2 (errorItem 0 "") = errorItem 2 "boom" := by
  obtain ⟨h1, h2⟩ := fault_detail_asymmetry cFaultBad t0 0 "boom"
  exact ⟨h1 _ "bad" rfl (by decide) (by decide) rfl,
         h2 [("texts", .list texts0)] texts0 rsFault smFault 2 "bad" rfl rfl
           (by decide) rfl (by decide) rfl⟩

/-- C9: display truncation.  On a successful `/analyze`, `input_text` is
the original text when its length is at most 100, otherwise the first 100
characters with "..." appended; on a successful batch item (one with no
`error` field), `text_preview` is the original text when its length is at
most 50, otherwise the first 50 characters with "..." appended.  The
truncation appears only in the success payloads, after all validation
(compare `analyze_validation_order`), so it affects no validation
decision. -/
theorem display_truncation (classify : Classifier) (timer : String → ℚ)
    (total_elapsed : ℚ) :
    (∀ data text dat, dictLookup "text" data = some (.str text) →
        analyze_sentiment_route classify timer (some data) = .success dat →
        dat.input_text =
          (if pyLen text > 100 then pyConcat (pySlice 100 text) "..." else text)) ∧
    (∀ data texts rs sm j t,
        dictLookup "texts" data = some (.list texts) →
        batch_analyze classify timer total_elapsed (some data) = .success rs sm →
        j < texts.length → texts.getD j .pynone = .str t →
        (rs.getD j (errorItem 0 "")).error = none →
        (rs.getD j (errorItem 0 "")).text_preview =
          some (if pyLen t > 50 then pyConcat (pySlice 50 t) "..." else t)) := by
  constructor
  · intro data text dat h hsuc
    rw [analyze_sentiment_route, h] at hsuc
    dsimp only at hsuc
    by_cases h1 : (pyStrip text).data.isEmpty = true
    · rw [if_pos h1] at hsuc
      exact absurd hsuc (by simp)
    · rw [if_neg h1] at hsuc
      by_cases h2 : pyLen text > 5000
      · rw [if_pos h2] at hsuc
        exact absurd hsuc (by simp)
      · rw [if_neg h2] at hsuc
        cases hc : CiryxVibe.analyze_sentiment classify timer text with
        | ok r =>
            rw [hc] at hsuc
            injection hsuc with hd
            rw [← hd]
        | error e2 =>
            rw [hc] at hsuc
            exact absurd hsuc (by simp)
  · intro data texts rs sm j t hlook h hj ht herr
    obtain ⟨hlen, hp, hsm⟩ :=
      batch_success_inv classify timer total_elapsed data texts rs sm hlook h
    obtain ⟨hall, hrs⟩ := process_texts_ok_inv classify timer 0 texts rs hp
    subst hrs
    rw [map_items_getD _ 0 texts j hj (errorItem 0 ""), Nat.zero_add, ht] at herr ⊢
    cases hf : pyFalsy (PyVal.str t) with
    | true =>
        rw [item_result_of_falsy classify timer j _ hf] at herr
        simp [errorItem] at herr
    | false =>
        cases hs : (pyStrip t).data.isEmpty with
        | true =>
            rw [item_result_str_stripped classify timer j t hs] at herr
            simp [errorItem] at herr
        | false =>
            cases hc : classify t with
            | error e2 =>
                rw [item_result_str_fault classify timer j t e2 hs hc] at herr
                simp [errorItem] at herr
            | ok p =>
                rw [item_result_str_ok classify timer j t p hs hc]

/-- Witness for C9 on a short text (no truncation applied). -/
theorem display_truncation_witness :
    datGood.input_text =
      (if pyLen "good" > 100 then pyConcat (pySlice 100 "good") "..." else "good") ∧
    (rsGood.getD 0 (errorItem 0 "")).text_preview =
      some (if pyLen "good" > 50 then pyConcat (pySlice 50 "good") "..." else "good") := by
  obtain ⟨h1, h2⟩ := display_truncation cGood t0 0
  exact ⟨h1 [("text", .str "good")] "good" datGood rfl rfl,
         h2 [("texts", .list texts0)] texts0 rsGood smGood 0 "good" rfl rfl
           (by decide) rfl rfl⟩

/-- C10 (implicit): a truthy non-string batch item makes the per-item
emptiness check raise outside the per-item handler, so the whole request
is 500 BATCH_ERROR with no per-item results; a falsy non-string item
(None, 0, False) is silently recorded as an "Empty text" item instead of
a type error. -/
theorem batch_ill_typed_items (classify : Classifier) (timer : String → ℚ)
    (total_elapsed : ℚ) :
    (∀ data texts, dictLookup "texts" data = some (.list texts) →
        texts.length ≤ 100 →
        (∃ v ∈ texts, pyFalsy v = false ∧ ∀ s, v ≠ .str s) →
        batch_analyze classify timer total_elapsed (some data) =
          .failure 500 ⟨"Internal server error", "BATCH_ERROR"⟩) ∧
    (∀ data texts rs sm j,
        dictLookup "texts" data = some (.list texts) →
        batch_analyze classify timer total_elapsed (some data) = .success rs sm →
        j < texts.length →
        pyFalsy (texts.getD j .pynone) = true →
        rs.getD j (errorItem 0 "") = errorItem j "Empty text") := by
  constructor
  · intro data texts hlook hlen hbad
    have hex : ∃ v ∈ texts, item_ok v = false := by
      obtain ⟨v, hv, hf, hns⟩ := hbad
      refine ⟨v, hv, ?_⟩
      cases v with
      | str s => exact absurd rfl (hns s)
      | int n => simp [item_ok, hf]
      | bool b => simp [item_ok, hf]
      | pynone => simp [pyFalsy] at hf
      | list xs => simp [item_ok, hf]
    obtain ⟨e, he⟩ := process_texts_raises classify timer 0 texts hex
    rw [batch_analyze, hlook]
    dsimp only
    rw [if_neg (by omega), he]
  · intro data texts rs sm j hlook h hj hf
    obtain ⟨hlen, hp, hsm⟩ :=
      batch_success_inv classify timer total_elapsed data texts rs sm hlook h
    obtain ⟨hall, hrs⟩ := process_texts_ok_inv classify timer 0 texts rs hp
    subst hrs
    rw [map_items_getD _ 0 texts j hj (errorItem 0 ""), Nat.zero_add]
    exact item_result_of_falsy classify timer j _ hf

/-- Witness for C10: `[.str "good", .int 5]` makes the whole batch 500;
in the accepted all-falsy batch `[.pynone, .int 0]` item 0 is recorded as
"Empty text". -/
theorem batch_ill_typed_items_witness :
    batch_analyze cGood t0 0 (some [("texts", .list [.str "good", .int 5])]) =
      .failure 500 ⟨"Internal server error", "BATCH_ERROR"⟩ ∧
    rsFalsy.getD 0 (errorItem 0 "") = errorItem 0 "Empty text" := by
  obtain ⟨h1, h2⟩ := batch_ill_typed_items cGood t0 0
  refine ⟨h1 _ [.str "good", .int 5] rfl (by simp)
      ⟨.int 5, by simp, by decide, fun s h => PyVal.noConfusion h⟩, ?_⟩
  exact h2 [("texts", .list [.pynone, .int 0])] [.pynone, .int 0] rsFalsy smFalsy 0
    rfl rfl (by simp) rfl
